import Mathlib

set_option maxHeartbeats 1000000

/-
Verification of the schema-types runtime validation library (src/index.ts)
against its specification, over a shallow embedding of the JavaScript code.

Modelling conventions:
 * A JavaScript runtime value is a `JSValue`.  Numbers are modelled as
   rationals (finite doubles; NaN and the infinities are outside the model,
   no claim exercises them).  A JS object is its list of own enumerable
   string-keyed properties in insertion order, together with the two
   non-enumerable symbol slots `OPTIONAL` and `READONLY` that the source
   attaches via Object.defineProperty (those are the only symbol-keyed,
   non-enumerable properties the library ever creates, so two booleans model
   them exactly).
 * A raised JS exception is `Except.error`; ordinary returns are `Except.ok`.
 * The host RegExp facility (`new RegExp(source)` plus `.test`) is passed as
   an explicit parameter `re : JSValue → Option (String → Bool)`; `none`
   models the constructor throwing SyntaxError on an invalid pattern source.
-/

namespace SchemaSpec

/-- A JavaScript runtime value.  `obj fields optionalFlag readonlyFlag`:
`fields` are the own enumerable string-keyed properties in insertion order,
the two booleans are the non-enumerable OPTIONAL/READONLY symbol slots. -/
inductive JSValue : Type where
  | undef : JSValue
  | null : JSValue
  | bool : Bool → JSValue
  | num : ℚ → JSValue
  | str : String → JSValue
  | arr : List JSValue → JSValue
  | obj : List (String × JSValue) → Bool → Bool → JSValue

/-- First binding of a key in a field list (JS object literals and the
objects the library builds have distinct keys, so first = only). -/
def lookupField : List (String × JSValue) → String → Option JSValue
  | [], _ => none
  | (k, v) :: rest, key => if k == key then some v else lookupField rest key

/-- JS property read `o[k]`: an absent property reads as undefined.  Index
reads on arrays are modelled; property reads on other primitives (which box
in JS) are modelled as undefined — no code path of the library reaches them
with a non-object receiver except through pathological schemas no claim
exercises. -/
def getProp (v : JSValue) (k : String) : JSValue :=
  match v with
  | .obj fields _ _ => (lookupField fields k).getD JSValue.undef
  | .arr items =>
    match k.toNat? with
    | some i => items.getD i JSValue.undef
    | none => JSValue.undef
  | _ => JSValue.undef

/-- Insertion-order deduplication, as the Set constructor performs it (the
first occurrence of a key wins). -/
def dedupKeysAux : List String → List String → List String
  | [], _ => []
  | k :: rest, seen =>
    if seen.contains k then dedupKeysAux rest seen
    else k :: dedupKeysAux rest (k :: seen)

def dedupKeys (l : List String) : List String := dedupKeysAux l []

/-- Object.keys / the keysOf helper: own enumerable string keys.  Throws
TypeError for undefined and null; arrays and strings expose their index
keys; other primitives have none. -/
def jsKeys : JSValue → Except String (List String)
  | JSValue.undef => .error "TypeError: Cannot convert undefined or null to object"
  | .null => .error "TypeError: Cannot convert undefined or null to object"
  | .obj fields _ _ => .ok (dedupKeys (fields.map Prod.fst))
  | .arr items => .ok ((List.range items.length).map (fun i => toString i))
  | .str s => .ok ((List.range s.length).map (fun i => toString i))
  | _ => .ok []

/-- src 211-221, isSchemaType: typeof value is 'object', value is not null,
'type' in value, and typeof value.type is 'string'.  An array has typeof
'object' but never a 'type' property, so it fails the 'in' test; null fails
the null test; other primitives fail the typeof test. -/
def isSchemaType (value : JSValue) : Bool :=
  match value with
  | .obj fields _ _ =>
    match lookupField fields "type" with
    | some (.str _) => true
    | _ => false
  | _ => false

/-- JS strict equality of an arbitrary value against a string literal. -/
def strEq (v : JSValue) (s : String) : Bool :=
  match v with
  | .str t => t == s
  | _ => false

def isUndef : JSValue → Bool
  | JSValue.undef => true
  | _ => false

def isJSArray : JSValue → Bool
  | .arr _ => true
  | _ => false

/-- src 223: value.type === 'boolean'. -/
def isBooleanType (value : JSValue) : Bool := strEq (getProp value "type") "boolean"

/-- src 224: value.type === 'null'. -/
def isNullType (value : JSValue) : Bool := strEq (getProp value "type") "null"

/-- src 225: value.type === 'number'. -/
def isNumberType (value : JSValue) : Bool := strEq (getProp value "type") "number"

/-- src 226: value.type === 'string'. -/
def isStringType (value : JSValue) : Bool := strEq (getProp value "type") "string"

/-- src 227: value.type === 'undefined'. -/
def isUndefinedType (value : JSValue) : Bool := strEq (getProp value "type") "undefined"

/-- src 229-230: value.type === 'array' and items is not an Array. -/
def isArrayType (value : JSValue) : Bool :=
  strEq (getProp value "type") "array" && !(isJSArray (getProp value "items"))

/-- src 238-239: value.type === 'array' and items is an Array. -/
def isTupleType (value : JSValue) : Bool :=
  strEq (getProp value "type") "array" && isJSArray (getProp value "items")

/-- src 232-234: value.type === 'object' and additionalProperties !== undefined. -/
def isRecordType (value : JSValue) : Bool :=
  strEq (getProp value "type") "object" && !(isUndef (getProp value "additionalProperties"))

/-- src 236: value.type === 'object'. -/
def isObjectType (value : JSValue) : Bool := strEq (getProp value "type") "object"

/-- src 241-244: the OPTIONAL symbol slot === true. -/
def isOptional : JSValue → Bool
  | .obj _ o _ => o
  | _ => false

/-- src 246-249: the READONLY symbol slot === true. -/
def isReadonly : JSValue → Bool
  | .obj _ _ r => r
  | _ => false

/-- The three issue kinds of src 252. -/
inductive IssueType : Type where
  | INVALID_SCHEMA : IssueType
  | INVALID_TYPE : IssueType
  | INVALID_VALUE : IssueType
deriving DecidableEq, Repr

/-- src 251-255. -/
structure ValidationIssue where
  type : IssueType
  message : String
  path : String
deriving DecidableEq, Repr

/-- Model of Node's util.inspect (a host library function, not repository
code): renders the offending value inside an INVALID_TYPE message.  No claim
depends on the rendering, so children of containers are summarised. -/
def inspect : JSValue → String
  | JSValue.undef => "undefined"
  | .null => "null"
  | .bool b => if b then "true" else "false"
  | .num q => toString q
  | .str s => s.quote
  | .arr _ => "[Array]"
  | .obj _ _ _ => "[Object]"

/-- Model of JS template-literal stringification of a schema constraint value
(host number formatting; the exact digits are irrelevant to every claim). -/
def jsToString : JSValue → String
  | JSValue.undef => "undefined"
  | .null => "null"
  | .bool b => if b then "true" else "false"
  | .num q => toString q
  | .str s => s
  | .arr _ => ""
  | .obj _ _ _ => "[object Object]"

/-- src 257-261. -/
def invalidTypeIssue (expected : String) (value : JSValue) (path : String) : ValidationIssue :=
  ⟨.INVALID_TYPE, "Invalid type, expected " ++ expected ++ ", got " ++ inspect value, path⟩

/-- Model of JS ToNumber on a constraint value read off a schema field.  The
builder only ever stores numbers in those fields, so numeric-string parsing
is not modelled (none stands for NaN). -/
def toNumberQ : JSValue → Option ℚ
  | .num q => some q
  | .bool b => some (if b then 1 else 0)
  | .null => some 0
  | _ => none

/-- The comparison value > bound; a NaN bound compares false. -/
def numGT (a : ℚ) (b : JSValue) : Bool :=
  match toNumberQ b with
  | some q => decide (a > q)
  | none => false

/-- The comparison value >= bound; a NaN bound compares false. -/
def numGE (a : ℚ) (b : JSValue) : Bool :=
  match toNumberQ b with
  | some q => decide (a ≥ q)
  | none => false

/-- The comparison value < bound; a NaN bound compares false. -/
def numLT (a : ℚ) (b : JSValue) : Bool :=
  match toNumberQ b with
  | some q => decide (a < q)
  | none => false

/-- The comparison value <= bound; a NaN bound compares false. -/
def numLE (a : ℚ) (b : JSValue) : Bool :=
  match toNumberQ b with
  | some q => decide (a ≤ q)
  | none => false

/-- Truncation toward zero: the integer part taken by the C-style fmod that
the JS % operator performs.  On a normalised numerator and denominator,
Int.tdiv truncates toward zero. -/
def ratTrunc (q : ℚ) : ℤ := Int.tdiv q.num (q.den : ℤ)

/-- The JS remainder a % m for finite operands and m ≠ 0:
a - m * trunc(a / m); the result carries the dividend's sign. -/
def jsFmod (a m : ℚ) : ℚ := a - m * (ratTrunc (a / m) : ℚ)

/-- The numerator of the JS remainder a % m over the common denominator
a.den * m.den: the truncated integer remainder of the cross products
(rational normalisation does not reduce in the kernel, integer arithmetic
does).  The remainder a % m is zero exactly when this is zero —
jsModNumerator_eq_zero_iff below proves that against the fmod definition. -/
def jsModNumerator (a m : ℚ) : ℤ :=
  Int.tmod (a.num * (m.den : ℤ)) (m.num * (a.den : ℤ))

/-- The test value % multipleOf !== 0 of src 281: with m = 0 (or a NaN
constraint) the JS remainder is NaN, which is !== 0. -/
def multipleOfViolated (a : ℚ) (b : JSValue) : Bool :=
  match toNumberQ b with
  | some m => if m = 0 then true else jsModNumerator a m != 0
  | none => true

/-- src 392, new Set(schema.required ?? []): undefined and null coalesce to
the empty list; spreading the Set keeps first-insertion order and drops
duplicates.  The builder only ever stores an array of strings here, so
non-string entries (which could never equal a string key) are dropped, and a
non-iterable required value (which would throw in JS) is not modelled. -/
def getRequired : JSValue → List String
  | .arr items =>
    dedupKeys (items.filterMap (fun v => match v with | .str s => some s | _ => none))
  | _ => []

/-- The cast on src 369 (schema.items as TupleType items): the tuple branch
is only entered once isTupleType guarantees items is an Array. -/
def asArr : JSValue → List JSValue
  | .arr items => items
  | _ => []

/-- Array.prototype.flatMap in the Except monad: each element's issue list is
computed left to right and concatenated; a raised exception propagates. -/
def exceptMapIssues {α : Type} (f : α → Except String (List ValidationIssue)) :
    List α → Except String (List ValidationIssue)
  | [] => .ok []
  | a :: rest => do
    let head ← f a
    let tail ← exceptMapIssues f rest
    .ok (head ++ tail)

theorem sizeOf_jsvalue_pos (v : JSValue) : 0 < sizeOf v := by
  cases v <;> simp_arith

theorem lookupField_sizeOf : ∀ (fields : List (String × JSValue)) (k : String) (v : JSValue),
    lookupField fields k = some v → sizeOf v < sizeOf fields
  | [], _, _, h => by simp [lookupField] at h
  | (k1, v1) :: rest, k, v, h => by
    simp only [lookupField] at h
    split at h
    · cases h
      have e : sizeOf ((k1, v1) :: rest) = 1 + (1 + sizeOf k1 + sizeOf v1) + sizeOf rest := by
        simp
      omega
    · have ih := lookupField_sizeOf rest k v h
      have e : sizeOf ((k1, v1) :: rest) = 1 + (1 + sizeOf k1 + sizeOf v1) + sizeOf rest := by
        simp
      omega

theorem listGetD_sizeOf : ∀ (items : List JSValue) (i : Nat),
    sizeOf (items.getD i JSValue.undef) ≤ sizeOf items
  | [], i => by
    have h0 : (([] : List JSValue).getD i JSValue.undef) = JSValue.undef := by
      simp [List.getD]
    rw [h0]
    simp
  | x :: rest, 0 => by
    have e : sizeOf (x :: rest) = 1 + sizeOf x + sizeOf rest := by simp
    have h0 : ((x :: rest).getD 0 JSValue.undef) = x := by simp [List.getD]
    rw [h0]
    omega
  | x :: rest, i + 1 => by
    have ih := listGetD_sizeOf rest i
    have e : sizeOf (x :: rest) = 1 + sizeOf x + sizeOf rest := by simp
    have h0 : ((x :: rest).getD (i + 1) JSValue.undef) = rest.getD i JSValue.undef := by
      simp [List.getD]
    rw [h0]
    omega

theorem getProp_sizeOf_lt_obj (fields : List (String × JSValue)) (o r : Bool) (k : String) :
    sizeOf (getProp (JSValue.obj fields o r) k) < sizeOf (JSValue.obj fields o r) := by
  have hb : sizeOf o = 1 := by cases o <;> simp
  have hr : sizeOf r = 1 := by cases r <;> simp
  have e : sizeOf (JSValue.obj fields o r) = 1 + sizeOf fields + sizeOf o + sizeOf r := by simp
  simp only [getProp]
  cases h : lookupField fields k with
  | none =>
    have hfs : 1 ≤ sizeOf fields := by cases fields <;> simp_arith
    simp only [Option.getD]
    have hu : sizeOf JSValue.undef = 1 := by simp
    omega
  | some v =>
    have := lookupField_sizeOf fields k v h
    simp only [Option.getD]
    omega

theorem getProp_sizeOf_le (v : JSValue) (k : String) : sizeOf (getProp v k) ≤ sizeOf v := by
  cases v with
  | obj fields o r => exact le_of_lt (getProp_sizeOf_lt_obj fields o r k)
  | arr items =>
    have e : sizeOf (JSValue.arr items) = 1 + sizeOf items := by simp
    have hfs : 1 ≤ sizeOf items := by cases items <;> simp_arith
    have hu : sizeOf JSValue.undef = 1 := by simp
    cases h : k.toNat? with
    | none =>
      have h0 : getProp (JSValue.arr items) k = JSValue.undef := by simp [getProp, h]
      rw [h0]
      omega
    | some i =>
      have h0 : getProp (JSValue.arr items) k = items.getD i JSValue.undef := by
        simp [getProp, h]
      rw [h0]
      have := listGetD_sizeOf items i
      omega
  | undef => simp [getProp]
  | null => simp [getProp]
  | bool b => simp only [getProp]; cases b <;> simp
  | num q =>
    have : sizeOf (JSValue.num q) = 1 + sizeOf q := by simp
    simp only [getProp]
    have hu : sizeOf JSValue.undef = 1 := by simp
    omega
  | str s =>
    have : sizeOf (JSValue.str s) = 1 + sizeOf s := by simp
    simp only [getProp]
    have hu : sizeOf JSValue.undef = 1 := by simp
    omega

theorem asArr_nil_getD_sizeOf (v : JSValue) (i : Nat) (h : asArr v = []) :
    sizeOf ((asArr v).getD i JSValue.undef) ≤ sizeOf v := by
  rw [h]
  have h0 : (([] : List JSValue).getD i JSValue.undef) = JSValue.undef := by
    simp [List.getD]
  rw [h0]
  have hu : sizeOf JSValue.undef = 1 := by simp
  have := sizeOf_jsvalue_pos v
  omega

theorem asArr_getD_sizeOf (v : JSValue) (i : Nat) :
    sizeOf ((asArr v).getD i JSValue.undef) ≤ sizeOf v := by
  cases v with
  | arr items =>
    have e : sizeOf (JSValue.arr items) = 1 + sizeOf items := by simp
    have := listGetD_sizeOf items i
    simp only [asArr]
    omega
  | undef => exact asArr_nil_getD_sizeOf _ i rfl
  | null => exact asArr_nil_getD_sizeOf _ i rfl
  | bool b => exact asArr_nil_getD_sizeOf _ i rfl
  | num q => exact asArr_nil_getD_sizeOf _ i rfl
  | str s => exact asArr_nil_getD_sizeOf _ i rfl
  | obj fields o r => exact asArr_nil_getD_sizeOf _ i rfl

theorem getProp_obj_lt_norm (fields : List (String × JSValue)) (o r : Bool) (k : String) :
    sizeOf (getProp (JSValue.obj fields o r) k) < 1 + sizeOf fields + 1 + 1 := by
  have h := getProp_sizeOf_lt_obj fields o r k
  have e : sizeOf (JSValue.obj fields o r) = 1 + sizeOf fields + sizeOf o + sizeOf r := by simp
  have hb : sizeOf o = 1 := by cases o <;> simp
  have hr : sizeOf r = 1 := by cases r <;> simp
  omega

theorem asArr_getD_lt_norm (fields : List (String × JSValue)) (o r : Bool) (i : Nat) :
    sizeOf ((asArr (getProp (JSValue.obj fields o r) "items"))[i]?.getD JSValue.undef)
      < 1 + sizeOf fields + 1 + 1 := by
  have h1 := asArr_getD_sizeOf (getProp (JSValue.obj fields o r) "items") i
  simp only [List.getD_eq_getElem?_getD] at h1
  have h2 := getProp_obj_lt_norm fields o r "items"
  omega

theorem getProp_getProp_lt_norm (fields : List (String × JSValue)) (o r : Bool)
    (k1 k2 : String) :
    sizeOf (getProp (getProp (JSValue.obj fields o r) k1) k2) < 1 + sizeOf fields + 1 + 1 := by
  have h1 := getProp_sizeOf_le (getProp (JSValue.obj fields o r) k1) k2
  have h2 := getProp_obj_lt_norm fields o r k1
  omega

/-- Shallow embedding of validateWithPath, src 263-426.  An `Except.error`
is a raised JS exception.  The outer match realises the src-264 isSchemaType
guard for non-object schemas (isSchemaType only accepts objects); for object
schemas the guard is taken verbatim.  Dispatch order and each branch follow
the source line by line. -/
def validateWithPath (re : JSValue → Option (String → Bool)) (path : String)
    (schema : JSValue) (value : JSValue) : Except String (List ValidationIssue) :=
  match schema with
  | .obj sfields sopt srd =>
    let s : JSValue := .obj sfields sopt srd
    if !(isSchemaType s) then
      .ok [⟨.INVALID_SCHEMA, "Invalid schema", path⟩]
    else if isBooleanType s then
      .ok (match value with
        | .bool _ => []
        | _ => [invalidTypeIssue "boolean" value path])
    else if isNullType s then
      .ok (match value with
        | .null => []
        | _ => [invalidTypeIssue "null" value path])
    else if isNumberType s then
      .ok (match value with
        | .num q =>
          (if !(isUndef (getProp s "multipleOf")) && multipleOfViolated q (getProp s "multipleOf") then
            [⟨.INVALID_VALUE, "Value must be a multiple of " ++ jsToString (getProp s "multipleOf"), path⟩]
          else []) ++
          (if !(isUndef (getProp s "maximum")) && numGT q (getProp s "maximum") then
            [⟨.INVALID_VALUE, "Value must be less than or equal to " ++ jsToString (getProp s "maximum") ++ ", instead was " ++ jsToString (JSValue.num q), path⟩]
          else []) ++
          (if !(isUndef (getProp s "exclusiveMaximum")) && numGE q (getProp s "exclusiveMaximum") then
            [⟨.INVALID_VALUE, "Value must be strictly less than " ++ jsToString (getProp s "exclusiveMaximum") ++ ", instead was " ++ jsToString (JSValue.num q), path⟩]
          else []) ++
          (if !(isUndef (getProp s "minimum")) && numLT q (getProp s "minimum") then
            [⟨.INVALID_VALUE, "Value must be greater than or equal to " ++ jsToString (getProp s "minimum") ++ ", instead was " ++ jsToString (JSValue.num q), path⟩]
          else []) ++
          (if !(isUndef (getProp s "exclusiveMinimum")) && numLE q (getProp s "exclusiveMinimum") then
            [⟨.INVALID_VALUE, "Value must be strictly greater than " ++ jsToString (getProp s "exclusiveMinimum") ++ ", instead was " ++ jsToString (JSValue.num q), path⟩]
          else [])
        | _ => [invalidTypeIssue "number" value path])
    else if isStringType s then
      match value with
      | .str sv =>
        let lengthIssues :=
          (if !(isUndef (getProp s "maxLength")) && numGT ((sv.length : ℚ)) (getProp s "maxLength") then
            [⟨.INVALID_VALUE, "String value must have a length no greater than " ++ jsToString (getProp s "maxLength") ++ ", instead was " ++ toString sv.length, path⟩]
          else []) ++
          (if !(isUndef (getProp s "minLength")) && numLT ((sv.length : ℚ)) (getProp s "minLength") then
            [⟨.INVALID_VALUE, "String value must have a length no less than " ++ jsToString (getProp s "minLength") ++ ", instead was " ++ toString sv.length, path⟩]
          else [])
        if !(isUndef (getProp s "pattern")) then
          match re (getProp s "pattern") with
          | none => .error "SyntaxError: Invalid regular expression"
          | some test =>
            .ok (lengthIssues ++
              (if !(test sv) then
                [⟨.INVALID_VALUE, "String value must match pattern: " ++ jsToString (getProp s "pattern"), path⟩]
              else []))
        else .ok lengthIssues
      | _ => .ok [invalidTypeIssue "string" value path]
    else if isUndefinedType s then
      .ok (match value with
        | JSValue.undef => []
        | _ => [invalidTypeIssue "undefined" value path])
    else if isArrayType s then
      match value with
      | .arr items =>
        exceptMapIssues (fun i =>
          validateWithPath re (path ++ "/" ++ toString i) (getProp s "items") (items.getD i JSValue.undef))
          (List.range items.length)
      | _ => .ok [invalidTypeIssue "array" value path]
    else if isTupleType s then
      match value with
      | .arr items =>
        let sitems := asArr (getProp s "items")
        if items.length != sitems.length then
          .ok [⟨.INVALID_TYPE, "Expected " ++ toString sitems.length ++ " elements, got " ++
            toString items.length ++ " elements instead", path⟩]
        else
          exceptMapIssues (fun i =>
            validateWithPath re (path ++ "/" ++ toString i) (sitems.getD i JSValue.undef) (items.getD i JSValue.undef))
            (List.range items.length)
      | _ => .ok [invalidTypeIssue "tuple" value path]
    else if isObjectType s then
      match value with
      | .obj vfields _ _ =>
        let valueKeys := dedupKeys (vfields.map Prod.fst)
        do
          let expectedKeys ← jsKeys (getProp s "properties")
          let requiredKeys := getRequired (getProp s "required")
          let extraKeys := valueKeys.filter (fun key => !(expectedKeys.contains key))
          let missingRequiredKeys := requiredKeys.filter (fun key => !(valueKeys.contains key))
          let children ← exceptMapIssues (fun key =>
            if expectedKeys.contains key then
              validateWithPath re (path ++ "/" ++ key) (getProp (getProp s "properties") key)
                (getProp value key)
            else .ok []) valueKeys
          .ok ((if extraKeys.length > 0 then
                  [⟨.INVALID_TYPE, "Unexpected keys: " ++ String.intercalate ", " extraKeys, path⟩]
                else []) ++
               (if missingRequiredKeys.length > 0 then
                  [⟨.INVALID_TYPE, "Missing required keys: " ++
                    String.intercalate ", " missingRequiredKeys, path⟩]
                else []) ++ children)
      | _ => .ok [invalidTypeIssue "object" value path]
    else
      .ok [⟨.INVALID_SCHEMA, "Unable to validate type", path⟩]
  | _ => .ok [⟨.INVALID_SCHEMA, "Invalid schema", path⟩]
termination_by sizeOf schema
decreasing_by
  all_goals simp_wf
  all_goals
    first
      | exact getProp_obj_lt_norm _ _ _ "items"
      | exact asArr_getD_lt_norm _ _ _ _
      | exact getProp_getProp_lt_norm _ _ _ "properties" _

/-- src 432-434: the entry point; the root path is the empty string. -/
def validate (re : JSValue → Option (String → Bool)) (schema value : JSValue) :
    Except String (List ValidationIssue) :=
  validateWithPath re "" schema value

/-- A host RegExp model in which every pattern source compiles (to a regexp
matching everything); instantiations that never reach a pattern test use it. -/
def reTrue : JSValue → Option (String → Bool) := fun _ => some (fun _ => true)

/-- A host RegExp model for an invalid pattern source such as the lone
opening parenthesis: the RegExp constructor throws SyntaxError (none). -/
def reNone : JSValue → Option (String → Bool) := fun _ => none

/-- src 35-41, the NumberOptions interface: every field optional. -/
structure NumberOptions where
  multipleOf : Option ℚ := none
  maximum : Option ℚ := none
  exclusiveMaximum : Option ℚ := none
  minimum : Option ℚ := none
  exclusiveMinimum : Option ℚ := none

/-- src 43-47, the StringOptions interface. -/
structure StringOptions where
  maxLength : Option ℚ := none
  minLength : Option ℚ := none
  pattern : Option String := none

/-- The object spread of an options object: a present numeric option becomes
one enumerable field, an absent one contributes nothing. -/
def optNumField (k : String) : Option ℚ → List (String × JSValue)
  | some q => [(k, .num q)]
  | none => []

/-- As optNumField, for a string-valued option. -/
def optStrField (k : String) : Option String → List (String × JSValue)
  | some s => [(k, .str s)]
  | none => []

/-- src 180-183: the keys of the properties map whose value does not carry
the OPTIONAL marker (the source tests the slot's truthiness, the predicate
isOptional tests === true; on the boolean slot of the model these agree). -/
def requiredKeysOf (properties : List (String × JSValue)) : List String :=
  (dedupKeys (properties.map Prod.fst)).filter
    (fun key => !(isOptional ((lookupField properties key).getD JSValue.undef)))

/- The schema builders of the class T, src 154-209.  Each returns a fresh
plain object (no modifier slots set). -/
namespace T

/-- src 156: an empty object with no discriminant tag. -/
def any : JSValue := .obj [] false false

/-- src 157. -/
def boolean : JSValue := .obj [("type", .str "boolean")] false false

/-- src 158. -/
def null : JSValue := .obj [("type", .str "null")] false false

/-- src 167. -/
def undefined : JSValue := .obj [("type", .str "undefined")] false false

/-- The field list of a number schema: the spread of the options object,
then the tag (src 159-162). -/
def numberFields (o : NumberOptions) : List (String × JSValue) :=
  optNumField "multipleOf" o.multipleOf ++ optNumField "maximum" o.maximum ++
    optNumField "exclusiveMaximum" o.exclusiveMaximum ++
    optNumField "minimum" o.minimum ++ optNumField "exclusiveMinimum" o.exclusiveMinimum ++
    [("type", .str "number")]

/-- src 159-162. -/
def number (o : NumberOptions) : JSValue := .obj (numberFields o) false false

/-- The field list of a string schema (src 163-166). -/
def stringFields (o : StringOptions) : List (String × JSValue) :=
  optNumField "maxLength" o.maxLength ++ optNumField "minLength" o.minLength ++
    optStrField "pattern" o.pattern ++ [("type", .str "string")]

/-- src 163-166. -/
def string (o : StringOptions) : JSValue := .obj (stringFields o) false false

/-- src 169-172. -/
def array (items : JSValue) : JSValue :=
  .obj [("type", .str "array"), ("items", items)] false false

/-- src 174-177. -/
def record (items : JSValue) : JSValue :=
  .obj [("type", .str "object"), ("additionalProperties", items)] false false

/-- src 191-194. -/
def tuple (items : List JSValue) : JSValue :=
  .obj [("type", .str "array"), ("items", .arr items)] false false

/-- src 179-189: required is computed once, and the field is spread in only
when the list is non-empty. -/
def object (properties : List (String × JSValue)) : JSValue :=
  let required := requiredKeysOf properties
  .obj ([("type", .str "object"), ("properties", .obj properties false false)] ++
        (if required.length > 0 then [("required", .arr (required.map JSValue.str))] else []))
    false false

/-- src 198-202: the object spread {...item} copies only the own enumerable
properties, so any modifier slots already on the input (both non-enumerable)
are dropped; defineProperty then attaches the OPTIONAL slot non-enumerably.
Spreading a non-object yields an object with no string-keyed fields (string
index spreading is not modelled; the typed API only passes schema objects). -/
def optional (item : JSValue) : JSValue :=
  match item with
  | .obj fields _ _ => .obj fields true false
  | _ => .obj [] true false

/-- src 204-208: as optional, attaching the READONLY slot. -/
def readonly (item : JSValue) : JSValue :=
  match item with
  | .obj fields _ _ => .obj fields false true
  | _ => .obj [] false true

end T

/-- Value-kind test used to state the non-numeric half of the number branch. -/
def JSValue.isNum : JSValue → Bool
  | .num _ => true
  | _ => false

/-- Value-kind test: is the value a plain (non-array, non-null) object. -/
def JSValue.isObj : JSValue → Bool
  | .obj _ _ _ => true
  | _ => false

/-- Value-kind test: is the value a string. -/
def JSValue.isStr : JSValue → Bool
  | .str _ => true
  | _ => false

/-- Modelled from the spec (4.4 step 4): one INVALID_VALUE issue per present,
violated numeric constraint, in source order, each condition stated directly
on the rationals. -/
def numberConstraintIssuesSpec (path : String) (o : NumberOptions) (q : ℚ) : List ValidationIssue :=
  (match o.multipleOf with
   | some m =>
     if m = 0 ∨ jsFmod q m ≠ 0 then
       [⟨.INVALID_VALUE, "Value must be a multiple of " ++ jsToString (.num m), path⟩]
     else []
   | none => []) ++
  (match o.maximum with
   | some m =>
     if q > m then
       [⟨.INVALID_VALUE, "Value must be less than or equal to " ++ jsToString (.num m) ++
         ", instead was " ++ jsToString (.num q), path⟩]
     else []
   | none => []) ++
  (match o.exclusiveMaximum with
   | some m =>
     if q ≥ m then
       [⟨.INVALID_VALUE, "Value must be strictly less than " ++ jsToString (.num m) ++
         ", instead was " ++ jsToString (.num q), path⟩]
     else []
   | none => []) ++
  (match o.minimum with
   | some m =>
     if q < m then
       [⟨.INVALID_VALUE, "Value must be greater than or equal to " ++ jsToString (.num m) ++
         ", instead was " ++ jsToString (.num q), path⟩]
     else []
   | none => []) ++
  (match o.exclusiveMinimum with
   | some m =>
     if q ≤ m then
       [⟨.INVALID_VALUE, "Value must be strictly greater than " ++ jsToString (.num m) ++
         ", instead was " ++ jsToString (.num q), path⟩]
     else []
   | none => [])

theorem validateWithPath_no_fields (re : JSValue → Option (String → Bool)) (path : String)
    (o r : Bool) (v : JSValue) :
    validateWithPath re path (.obj [] o r) v = .ok [⟨.INVALID_SCHEMA, "Invalid schema", path⟩] := by
  rw [validateWithPath.eq_def]
  rfl

/-- The two modifier slots play no part in validation: validateWithPath reads
a schema object only through its enumerable fields. -/
theorem validateWithPath_flags (re : JSValue → Option (String → Bool)) (path : String)
    (fields : List (String × JSValue)) (o1 r1 o2 r2 : Bool) (v : JSValue) :
    validateWithPath re path (.obj fields o1 r1) v
      = validateWithPath re path (.obj fields o2 r2) v := by
  conv_lhs => rw [validateWithPath.eq_def]
  conv_rhs => rw [validateWithPath.eq_def]
  simp only [getProp, isSchemaType, isBooleanType, isNullType, isNumberType, isStringType,
    isUndefinedType, isArrayType, isTupleType, isObjectType, isRecordType, strEq]

/-- The remainder a % m is zero exactly when its integer numerator over the
common denominator is zero (m ≠ 0): the test the code performs on integer
cross products agrees with the C-style fmod the JS % operator computes. -/
theorem jsModNumerator_eq_zero_iff (a m : ℚ) (hm : m ≠ 0) :
    jsModNumerator a m = 0 ↔ jsFmod a m = 0 := by
  have hmnum : m.num ≠ 0 := Rat.num_ne_zero.mpr hm
  have haden : (a.den : ℤ) ≠ 0 := by
    exact_mod_cast a.den_nz
  have hn2 : m.num * (a.den : ℤ) ≠ 0 := mul_ne_zero hmnum haden
  have hn2q : ((m.num * (a.den : ℤ) : ℤ) : ℚ) ≠ 0 := by exact_mod_cast hn2
  have hq : a / m = ((a.num * (m.den : ℤ) : ℤ) : ℚ) / ((m.num * (a.den : ℤ) : ℤ) : ℚ) := by
    rw [Rat.div_def', Rat.divInt_eq_div]
    push_cast
    ring_nf
  have stepA : jsModNumerator a m = 0 ↔ (m.num * (a.den : ℤ)) ∣ (a.num * (m.den : ℤ)) := by
    rw [jsModNumerator]
    exact Int.dvd_iff_tmod_eq_zero.symm
  have stepB : (m.num * (a.den : ℤ)) ∣ (a.num * (m.den : ℤ)) ↔ (a / m).den = 1 := by
    constructor
    · rintro ⟨k, hk⟩
      have hk2 : a / m = (k : ℚ) := by
        rw [hq, hk]
        push_cast
        rw [mul_comm ((m.num : ℚ) * (a.den : ℚ)) (k : ℚ), mul_div_assoc,
          div_self (by push_cast at hn2q ⊢; exact hn2q), mul_one]
      rw [hk2, Rat.den_intCast]
    · intro hden
      have hnum : ((a / m).num : ℚ) = a / m := (Rat.den_eq_one_iff _).mp hden
      have hcross : ((a.num * (m.den : ℤ) : ℤ) : ℚ)
          = ((m.num * (a.den : ℤ) : ℤ) : ℚ) * ((a / m).num : ℚ) := by
        rw [hnum, hq]
        field_simp
      exact ⟨(a / m).num, by exact_mod_cast hcross⟩
  have stepC : jsFmod a m = 0 ↔ (a / m).den = 1 := by
    rw [jsFmod, ratTrunc]
    set t := Int.tdiv (a / m).num ((a / m).den : ℤ) with ht
    constructor
    · intro h0
      have ha : a = m * (t : ℚ) := by linarith
      have hdiv : a / m = (t : ℚ) := by
        rw [ha, mul_comm, mul_div_assoc, div_self hm, mul_one]
      rw [hdiv, Rat.den_intCast]
    · intro hden
      have ht1 : t = (a / m).num := by
        rw [ht, hden]
        norm_num
      rw [ht1]
      have hnum : ((a / m).num : ℚ) = a / m := (Rat.den_eq_one_iff _).mp hden
      rw [hnum, mul_div_cancel₀ a hm]
      ring
  exact stepA.trans (stepB.trans stepC.symm)

/-- The code's multipleOf test on a numeric constraint, restated as the
decision of the spec's condition: m = 0 (remainder NaN) or a nonzero
remainder. -/
theorem multipleOfViolated_num (q m : ℚ) :
    multipleOfViolated q (.num m) = decide (m = 0 ∨ jsFmod q m ≠ 0) := by
  rw [multipleOfViolated, toNumberQ]
  by_cases h : m = 0
  · simp [h]
  · simp only [if_neg h]
    by_cases h0 : jsModNumerator q m = 0
    · have hf : jsFmod q m = 0 := (jsModNumerator_eq_zero_iff q m h).mp h0
      simp [h0, h, hf]
    · have hf : jsFmod q m ≠ 0 := fun hc => h0 ((jsModNumerator_eq_zero_iff q m h).mpr hc)
      simp [h0, hf]

theorem number_isSchemaType (o : NumberOptions) : isSchemaType (T.number o) = true := by
  obtain ⟨mo, ma, ema, mi, emi⟩ := o
  cases mo <;> cases ma <;> cases ema <;> cases mi <;> cases emi <;> rfl

theorem number_isBooleanType (o : NumberOptions) : isBooleanType (T.number o) = false := by
  obtain ⟨mo, ma, ema, mi, emi⟩ := o
  cases mo <;> cases ma <;> cases ema <;> cases mi <;> cases emi <;> rfl

theorem number_isNullType (o : NumberOptions) : isNullType (T.number o) = false := by
  obtain ⟨mo, ma, ema, mi, emi⟩ := o
  cases mo <;> cases ma <;> cases ema <;> cases mi <;> cases emi <;> rfl

theorem number_isNumberType (o : NumberOptions) : isNumberType (T.number o) = true := by
  obtain ⟨mo, ma, ema, mi, emi⟩ := o
  cases mo <;> cases ma <;> cases ema <;> cases mi <;> cases emi <;> rfl

theorem getProp_number_multipleOf (o : NumberOptions) :
    getProp (T.number o) "multipleOf"
      = (match o.multipleOf with | some m => .num m | none => JSValue.undef) := by
  obtain ⟨mo, ma, ema, mi, emi⟩ := o
  cases mo <;> cases ma <;> cases ema <;> cases mi <;> cases emi <;> rfl

theorem getProp_number_maximum (o : NumberOptions) :
    getProp (T.number o) "maximum"
      = (match o.maximum with | some m => .num m | none => JSValue.undef) := by
  obtain ⟨mo, ma, ema, mi, emi⟩ := o
  cases mo <;> cases ma <;> cases ema <;> cases mi <;> cases emi <;> rfl

theorem getProp_number_exclusiveMaximum (o : NumberOptions) :
    getProp (T.number o) "exclusiveMaximum"
      = (match o.exclusiveMaximum with | some m => .num m | none => JSValue.undef) := by
  obtain ⟨mo, ma, ema, mi, emi⟩ := o
  cases mo <;> cases ma <;> cases ema <;> cases mi <;> cases emi <;> rfl

theorem getProp_number_minimum (o : NumberOptions) :
    getProp (T.number o) "minimum"
      = (match o.minimum with | some m => .num m | none => JSValue.undef) := by
  obtain ⟨mo, ma, ema, mi, emi⟩ := o
  cases mo <;> cases ma <;> cases ema <;> cases mi <;> cases emi <;> rfl

theorem getProp_number_exclusiveMinimum (o : NumberOptions) :
    getProp (T.number o) "exclusiveMinimum"
      = (match o.exclusiveMinimum with | some m => .num m | none => JSValue.undef) := by
  obtain ⟨mo, ma, ema, mi, emi⟩ := o
  cases mo <;> cases ma <;> cases ema <;> cases mi <;> cases emi <;> rfl

theorem numberFields_type (o : NumberOptions) :
    lookupField (T.numberFields o) "type" = some (.str "number") := by
  obtain ⟨mo, ma, ema, mi, emi⟩ := o
  cases mo <;> cases ma <;> cases ema <;> cases mi <;> cases emi <;> rfl

/-- C7: for every number schema built from any set of numeric constraint
options and every numeric value q, validate returns exactly the issue list
of numberConstraintIssuesSpec: each present constraint is checked
independently, one INVALID_VALUE issue per violation, with multipleOf
violated exactly when q mod m is nonzero (m = 0 giving NaN, which is
nonzero), maximum when q > m, exclusiveMaximum when q ≥ m, minimum when
q < m, exclusiveMinimum when q ≤ m; a non-numeric value instead yields
exactly one INVALID_TYPE issue and no constraint checks. -/
theorem C7_number_constraint_checks (re : JSValue → Option (String → Bool)) (path : String)
    (o : NumberOptions) (q : ℚ) (v : JSValue) (hv : v.isNum = false) :
    validateWithPath re path (T.number o) (.num q) = .ok (numberConstraintIssuesSpec path o q)
    ∧ validateWithPath re path (T.number o) v = .ok [invalidTypeIssue "number" v path] := by
  constructor
  · obtain ⟨mo, ma, ema, mi, emi⟩ := o
    cases mo <;> cases ma <;> cases ema <;> cases mi <;> cases emi <;>
      (rw [validateWithPath.eq_def]
       simp [T.number, T.numberFields, optNumField, numberConstraintIssuesSpec, getProp,
         lookupField, isSchemaType, strEq, isBooleanType, isNullType, isNumberType, isUndef,
         multipleOfViolated_num, numGT, numLT, numGE, numLE, toNumberQ, jsToString])
  · rw [validateWithPath.eq_def]
    simp only [T.number]
    simp [isSchemaType, isBooleanType, isNullType, isNumberType, getProp, strEq,
      numberFields_type]
    cases v <;> simp_all [JSValue.isNum]

/-- C7 witness: the theorem applied at a concrete instance — constraints
multipleOf 3 and maximum 10, numeric value 11, non-numeric value "x". -/
theorem C7_number_constraint_checks_witness :
    (JSValue.str "x").isNum = false
    ∧ (validateWithPath reTrue "" (T.number {multipleOf := some 3, maximum := some 10}) (.num 11)
        = .ok (numberConstraintIssuesSpec "" {multipleOf := some 3, maximum := some 10} 11)
      ∧ validateWithPath reTrue "" (T.number {multipleOf := some 3, maximum := some 10})
          (.str "x")
        = .ok [invalidTypeIssue "number" (.str "x") ""]) :=
  ⟨rfl, C7_number_constraint_checks reTrue ""
    {multipleOf := some 3, maximum := some 10} 11 (.str "x") rfl⟩

/-- C1: evaluation of the code at the failing input.  Validating the record
schema record(number) against the object value with the single key a bound
to 1 — a value that passes the object-ness check — does not recurse into the
keys per additionalProperties: the engine has no record branch, the schema
falls into the object-with-properties branch, and Object.keys of the absent
properties field raises TypeError. -/
theorem C1_record_validation_throws :
    validate reTrue (T.record (T.number {})) (.obj [("a", .num 1)] false false)
      = .error "TypeError: Cannot convert undefined or null to object" := by
  rw [validate, validateWithPath.eq_def]
  rfl

/-- C2: evaluation of the code at two failing inputs.  validate raises
rather than returning an issue sequence: a record schema applied to an
object value raises TypeError, and a string schema whose pattern source does
not compile (host model reNone, e.g. the source "(") raises SyntaxError. -/
theorem C2_validate_raises :
    validate reTrue (T.record T.boolean) (.obj [] false false)
        = .error "TypeError: Cannot convert undefined or null to object"
    ∧ validate reNone (T.string {pattern := some "("}) (.str "x")
        = .error "SyntaxError: Invalid regular expression" := by
  constructor
  · rw [validate, validateWithPath.eq_def]
    rfl
  · rw [validate, validateWithPath.eq_def]
    rfl

/-- C3: evaluation of the code at the failing input.  Marking is idempotent
per flag and isOptional survives composition, but the object spread inside
T.optional copies only enumerable properties, so the non-enumerable READONLY
slot of readonly(boolean()) is dropped: isReadonly(optional(readonly(S)))
evaluates to false, against the claimed composability. -/
theorem C3_modifier_composition_eval :
    isOptional (T.optional (T.optional T.boolean)) = true
    ∧ isOptional (T.optional (T.readonly T.boolean)) = true
    ∧ isReadonly (T.optional (T.readonly T.boolean)) = false :=
  ⟨rfl, rfl, rfl⟩

/-- C4, amended: for every Schema value (accepted by isSchemaType) whose tag
t is one of the seven known variant names, exactly one of the eight
predicates isBooleanType, isNullType, isNumberType, isStringType,
isUndefinedType, isArrayType, isTupleType, isObjectType holds; isRecordType
is not disjoint from them — it implies isObjectType, so a schema tagged
'object' with a present additionalProperties field satisfies both (not
isRecordType alone); and a value accepted by isSchemaType whose string tag
is unrecognized satisfies none of the nine. -/
theorem C4_variant_predicates_partition (v : JSValue) (t : String)
    (_hs : isSchemaType v = true) (ht : getProp v "type" = .str t) :
    (t ∈ ["boolean", "null", "number", "string", "undefined", "array", "object"] →
      [isBooleanType v, isNullType v, isNumberType v, isStringType v, isUndefinedType v,
        isArrayType v, isTupleType v, isObjectType v].count true = 1)
    ∧ (isRecordType v = true → isObjectType v = true)
    ∧ (t ∉ ["boolean", "null", "number", "string", "undefined", "array", "object"] →
      [isBooleanType v, isNullType v, isNumberType v, isStringType v, isUndefinedType v,
        isArrayType v, isTupleType v, isObjectType v, isRecordType v].count true = 0) := by
  refine ⟨?_, ?_, ?_⟩
  · intro hmem
    simp only [isBooleanType, isNullType, isNumberType, isStringType, isUndefinedType,
      isArrayType, isTupleType, isObjectType, strEq, ht]
    fin_cases hmem <;>
      cases hb : isJSArray (getProp v "items") <;>
        simp [hb, List.count_cons]
  · intro h
    have h2 := (Bool.and_eq_true _ _).mp (by
      simpa only [isRecordType] using h)
    simpa only [isObjectType] using h2.1
  · intro hnot
    simp only [List.mem_cons, List.not_mem_nil, or_false, not_or] at hnot
    obtain ⟨h1, h2, h3, h4, h5, h6, h7⟩ := hnot
    have e1 : (t == "boolean") = false := beq_eq_false_iff_ne.mpr h1
    have e2 : (t == "null") = false := beq_eq_false_iff_ne.mpr h2
    have e3 : (t == "number") = false := beq_eq_false_iff_ne.mpr h3
    have e4 : (t == "string") = false := beq_eq_false_iff_ne.mpr h4
    have e5 : (t == "undefined") = false := beq_eq_false_iff_ne.mpr h5
    have e6 : (t == "array") = false := beq_eq_false_iff_ne.mpr h6
    have e7 : (t == "object") = false := beq_eq_false_iff_ne.mpr h7
    simp [isBooleanType, isNullType, isNumberType, isStringType, isUndefinedType,
      isArrayType, isTupleType, isObjectType, isRecordType, strEq, ht,
      e1, e2, e3, e4, e5, e6, e7, List.count_cons]

/-- C4 witness: the theorem applied at the boolean schema — exactly one of
the eight variant predicates holds for it. -/
theorem C4_variant_predicates_partition_witness :
    [isBooleanType T.boolean, isNullType T.boolean, isNumberType T.boolean,
      isStringType T.boolean, isUndefinedType T.boolean, isArrayType T.boolean,
      isTupleType T.boolean, isObjectType T.boolean].count true = 1 :=
  (C4_variant_predicates_partition T.boolean "boolean" rfl rfl).1 (by decide)

/-- C5, amended: isSchemaType rejects every non-object and every object
whose 'type' field is absent or not a string; but a value with an
unrecognized STRING tag such as type 'bogus' passes isSchemaType, and the
Validation Engine reports it through the final defensive catch-all as
INVALID_SCHEMA "Unable to validate type" — it is not rejected before
dispatch. -/
theorem C5_isSchemaType_characterisation :
    (∀ v : JSValue, v.isObj = false → isSchemaType v = false)
    ∧ (∀ (fields : List (String × JSValue)) (o r : Bool),
        (∀ t : String, lookupField fields "type" ≠ some (.str t)) →
        isSchemaType (.obj fields o r) = false)
    ∧ isSchemaType (.obj [("type", .str "bogus")] false false) = true
    ∧ validate reTrue (.obj [("type", .str "bogus")] false false) (.num 1)
        = .ok [⟨.INVALID_SCHEMA, "Unable to validate type", ""⟩] := by
  refine ⟨?_, ?_, rfl, ?_⟩
  · intro v h
    cases v
    case obj => simp [JSValue.isObj] at h
    case undef => rfl
    case null => rfl
    case bool => rfl
    case num => rfl
    case str => rfl
    case arr => rfl
  · intro fields o r h
    simp only [isSchemaType]
  · rw [validate, validateWithPath.eq_def]
    rfl

/-- C6: for every value v and every host RegExp model, validating against
the schema built by any() — an empty object with no discriminant tag —
returns exactly one INVALID_SCHEMA issue with message "Invalid schema" at
the root (empty-string) path, and never recurses. -/
theorem C6_any_schema_invalid (re : JSValue → Option (String → Bool)) (v : JSValue) :
    validate re T.any v = .ok [⟨.INVALID_SCHEMA, "Invalid schema", ""⟩] := by
  rw [validate, validateWithPath.eq_def]
  rfl

/-- C4, counterexample: for the record schema record(boolean) — tagged
'object' with a present additionalProperties field — isRecordType is not the
only variant predicate that holds: isObjectType holds as well, so it is not
the case that exactly one of the nine predicates returns true. -/
theorem C4_counterexample_record_two_predicates :
    isRecordType (T.record T.boolean) = true ∧ isObjectType (T.record T.boolean) = true :=
  ⟨rfl, rfl⟩

/-- C5, counterexample: a value whose tag is the unrecognized string 'bogus'
is accepted by isSchemaType (the source checks only that the tag is a
string), against the claim that isSchemaType rejects it. -/
theorem C5_counterexample_bogus_tag_accepted :
    isSchemaType (.obj [("type", .str "bogus")] false false) = true := rfl

/-- Modelled from the spec (4.4 step 9): object-with-properties validation
described directly — the extra-keys issue (value keys not declared, in value
iteration order, comma-joined), then the missing-required issue, then the
concatenated recursion into exactly the declared value keys in value order;
extra keys are never recursed into. -/
def objectValidateSpec (re : JSValue → Option (String → Bool)) (path : String)
    (vfields pfields : List (String × JSValue)) (required : List String) :
    Except String (List ValidationIssue) := do
  let valueKeys := dedupKeys (vfields.map Prod.fst)
  let expectedKeys := dedupKeys (pfields.map Prod.fst)
  let extraKeys := valueKeys.filter (fun k => !(expectedKeys.contains k))
  let missing := required.filter (fun k => !(valueKeys.contains k))
  let children ← exceptMapIssues (fun k =>
    if expectedKeys.contains k then
      validateWithPath re (path ++ "/" ++ k) ((lookupField pfields k).getD JSValue.undef)
        ((lookupField vfields k).getD JSValue.undef)
    else .ok []) valueKeys
  .ok ((if extraKeys ≠ [] then
          [⟨.INVALID_TYPE, "Unexpected keys: " ++ String.intercalate ", " extraKeys, path⟩]
        else []) ++
       (if missing ≠ [] then
          [⟨.INVALID_TYPE, "Missing required keys: " ++ String.intercalate ", " missing, path⟩]
        else []) ++ children)

/-- C8: for every object-tagged schema with a present properties object and
every non-null, non-array object value, the engine's result is exactly the
spec's description objectValidateSpec: extra-keys issue first, then
missing-required issue, then the children of declared value keys in order
(extra keys never recursed into), with the required set read off the stored
required field (absent meaning empty). -/
theorem C8_object_with_properties (re : JSValue → Option (String → Bool)) (path : String)
    (sfields pfields vfields : List (String × JSValue)) (so sr po pr vo vr : Bool)
    (htype : lookupField sfields "type" = some (.str "object"))
    (hprops : lookupField sfields "properties" = some (.obj pfields po pr)) :
    validateWithPath re path (.obj sfields so sr) (.obj vfields vo vr)
      = objectValidateSpec re path vfields pfields
          (getRequired (getProp (.obj sfields so sr) "required")) := by
  rw [validateWithPath.eq_def]
  simp [objectValidateSpec, getProp, isSchemaType, strEq, isBooleanType, isNullType,
    isNumberType, isStringType, isUndefinedType, isArrayType, isTupleType, isObjectType,
    htype, hprops, jsKeys, List.length_pos, Bind.bind, Except.bind]

/-- C8 witness: the theorem applied at a concrete schema with one declared
property a, required keys a and b, and a value carrying an extra key c
next to a. -/
theorem C8_object_with_properties_witness :
    validateWithPath reTrue ""
        (.obj [("type", JSValue.str "object"),
          ("properties", .obj [("a", T.boolean)] false false),
          ("required", .arr [.str "a", .str "b"])] false false)
        (.obj [("c", .num 1), ("a", .bool true)] false false)
      = objectValidateSpec reTrue "" [("c", .num 1), ("a", .bool true)] [("a", T.boolean)]
          (getRequired (getProp (.obj [("type", JSValue.str "object"),
            ("properties", .obj [("a", T.boolean)] false false),
            ("required", .arr [.str "a", .str "b"])] false false) "required")) :=
  C8_object_with_properties reTrue "" _ _ _ false false false false false false rfl rfl

theorem dedupKeysAux_eq_self : ∀ (l seen : List String), l.Nodup →
    (∀ x ∈ l, seen.contains x = false) → dedupKeysAux l seen = l
  | [], _, _, _ => rfl
  | k :: rest, seen, hnd, hs => by
    have hk : seen.contains k = false := hs k (List.mem_cons_self k rest)
    have hk2 : k ∉ seen := by
      simp at hk
      exact hk
    have hknotin : k ∉ rest := (List.nodup_cons.mp hnd).1
    have hrec := dedupKeysAux_eq_self rest (k :: seen) (List.nodup_cons.mp hnd).2
      (by
        intro x hx
        have h1 : ¬ x = k := fun e => hknotin (e ▸ hx)
        have h2 := hs x (List.mem_cons_of_mem k hx)
        simp at h2 ⊢
        exact ⟨h1, h2⟩)
    simp [dedupKeysAux, hk2, hrec]

theorem dedupKeys_eq_of_nodup (l : List String) (h : l.Nodup) : dedupKeys l = l :=
  dedupKeysAux_eq_self l [] h (fun _ _ => rfl)

theorem filterReq_eq : ∀ (props : List (String × JSValue)), (props.map Prod.fst).Nodup →
    (props.map Prod.fst).filter
        (fun key => !(isOptional ((lookupField props key).getD JSValue.undef)))
      = (props.filter (fun p => !(isOptional p.2))).map Prod.fst
  | [], _ => rfl
  | (k, pv) :: rest, hnd => by
    have hnd2 : (k :: rest.map Prod.fst).Nodup := by simpa using hnd
    have hk_notin : k ∉ rest.map Prod.fst := (List.nodup_cons.mp hnd2).1
    have hnd_rest : (rest.map Prod.fst).Nodup := (List.nodup_cons.mp hnd2).2
    have ih := filterReq_eq rest hnd_rest
    simp only [List.map_cons, List.filter_cons]
    have hk : lookupField ((k, pv) :: rest) k = some pv := by simp [lookupField]
    have hcong : ∀ x ∈ rest.map Prod.fst,
        (!(isOptional ((lookupField ((k, pv) :: rest) x).getD JSValue.undef)))
          = (!(isOptional ((lookupField rest x).getD JSValue.undef))) := by
      intro x hx
      have hxk : (k == x) = false := beq_eq_false_iff_ne.mpr (fun e => hk_notin (e ▸ hx))
      simp [lookupField, hxk]
    rw [List.filter_congr hcong, hk]
    by_cases ho : isOptional pv
    · simp [ho, ih]
    · simp [ho, ih]

theorem getProp_object_required (props : List (String × JSValue)) :
    getProp (T.object props) "required"
      = (if (requiredKeysOf props).length > 0
         then .arr ((requiredKeysOf props).map JSValue.str) else JSValue.undef) := by
  by_cases h : (requiredKeysOf props).length > 0
  · simp [T.object, getProp, lookupField, h]
  · simp [T.object, getProp, lookupField, h]

theorem requiredKeysOf_nodup (props : List (String × JSValue))
    (hnd : (props.map Prod.fst).Nodup) : (requiredKeysOf props).Nodup := by
  rw [requiredKeysOf, dedupKeys_eq_of_nodup _ hnd]
  exact List.Nodup.filter _ hnd

/-- C9: for a properties map with distinct keys, the object() builder stores
as required exactly the keys whose property schema does not carry the
optional marker (read back through the stored required field and the
engine's getRequired decoding); the required field is the absent value
exactly when that set is empty; and getRequired of the absent value is the
empty required set — never all-required or all-optional. -/
theorem C9_object_required_invariant (props : List (String × JSValue))
    (hnd : (props.map Prod.fst).Nodup) :
    getRequired (getProp (T.object props) "required")
        = (props.filter (fun p => !(isOptional p.2))).map Prod.fst
    ∧ (getProp (T.object props) "required" = JSValue.undef
        ↔ (props.filter (fun p => !(isOptional p.2))).map Prod.fst = [])
    ∧ getRequired JSValue.undef = [] := by
  have hreq : requiredKeysOf props
      = (props.filter (fun p => !(isOptional p.2))).map Prod.fst := by
    rw [requiredKeysOf, dedupKeys_eq_of_nodup _ hnd]
    exact filterReq_eq props hnd
  have hnodupR := requiredKeysOf_nodup props hnd
  refine ⟨?_, ?_, rfl⟩
  · rw [getProp_object_required]
    by_cases h : (requiredKeysOf props).length > 0
    · rw [if_pos h]
      rw [getRequired]
      have hfm : ∀ R : List String, (R.map JSValue.str).filterMap
          (fun v => match v with | .str s => some s | _ => none) = R := by
        intro R
        induction R with
        | nil => rfl
        | cons a l ih => simp [ih]
      rw [hfm, dedupKeys_eq_of_nodup _ hnodupR, hreq]
    · rw [if_neg h]
      have hz : requiredKeysOf props = [] := List.length_eq_zero.mp (by omega)
      rw [← hreq, hz]
      rfl
  · rw [getProp_object_required]
    by_cases h : (requiredKeysOf props).length > 0
    · rw [if_pos h]
      constructor
      · intro habs
        injection habs
      · intro hnil
        rw [← hreq] at hnil
        rw [hnil] at h
        simp at h
    · rw [if_neg h]
      have hz : requiredKeysOf props = [] := List.length_eq_zero.mp (by omega)
      simp [← hreq, hz]

/-- C9 witness: the theorem applied at the map with a required key a and an
optional key b. -/
theorem C9_object_required_invariant_witness :
    getRequired (getProp (T.object [("a", T.boolean), ("b", T.optional T.boolean)]) "required")
        = ([("a", T.boolean), ("b", T.optional T.boolean)].filter
            (fun p => !(isOptional p.2))).map Prod.fst
    ∧ (getProp (T.object [("a", T.boolean), ("b", T.optional T.boolean)]) "required"
          = JSValue.undef
        ↔ ([("a", T.boolean), ("b", T.optional T.boolean)].filter
            (fun p => !(isOptional p.2))).map Prod.fst = [])
    ∧ getRequired JSValue.undef = [] :=
  C9_object_required_invariant [("a", T.boolean), ("b", T.optional T.boolean)] (by decide)

/-- C10: attaching a modifier never changes validation: optional(S) and
readonly(S) validate exactly as S does, for every schema value S, every
value v, every path and every host RegExp model — the modifier slots are
invisible to the engine, which reads schemas only through their enumerable
fields. -/
theorem C10_modifiers_do_not_affect_validation (re : JSValue → Option (String → Bool))
    (path : String) (S v : JSValue) :
    validateWithPath re path (T.optional S) v = validateWithPath re path S v
    ∧ validateWithPath re path (T.readonly S) v = validateWithPath re path S v := by
  cases S with
  | obj fields o r =>
    exact ⟨validateWithPath_flags re path fields true false o r v,
           validateWithPath_flags re path fields false true o r v⟩
  | undef =>
    refine ⟨?_, ?_⟩ <;>
      · rw [show validateWithPath re path JSValue.undef v
              = .ok [⟨.INVALID_SCHEMA, "Invalid schema", path⟩] by
            rw [validateWithPath.eq_def]]
        exact validateWithPath_no_fields re path _ _ v
  | null =>
    refine ⟨?_, ?_⟩ <;>
      · rw [show validateWithPath re path JSValue.null v
              = .ok [⟨.INVALID_SCHEMA, "Invalid schema", path⟩] by
            rw [validateWithPath.eq_def]]
        exact validateWithPath_no_fields re path _ _ v
  | bool b =>
    refine ⟨?_, ?_⟩ <;>
      · rw [show validateWithPath re path (JSValue.bool b) v
              = .ok [⟨.INVALID_SCHEMA, "Invalid schema", path⟩] by
            rw [validateWithPath.eq_def]]
        exact validateWithPath_no_fields re path _ _ v
  | num q =>
    refine ⟨?_, ?_⟩ <;>
      · rw [show validateWithPath re path (JSValue.num q) v
              = .ok [⟨.INVALID_SCHEMA, "Invalid schema", path⟩] by
            rw [validateWithPath.eq_def]]
        exact validateWithPath_no_fields re path _ _ v
  | str s =>
    refine ⟨?_, ?_⟩ <;>
      · rw [show validateWithPath re path (JSValue.str s) v
              = .ok [⟨.INVALID_SCHEMA, "Invalid schema", path⟩] by
            rw [validateWithPath.eq_def]]
        exact validateWithPath_no_fields re path _ _ v
  | arr items =>
    refine ⟨?_, ?_⟩ <;>
      · rw [show validateWithPath re path (JSValue.arr items) v
              = .ok [⟨.INVALID_SCHEMA, "Invalid schema", path⟩] by
            rw [validateWithPath.eq_def]]
        exact validateWithPath_no_fields re path _ _ v

end SchemaSpec

